import Mathlib

/-!
# Verification of the restaurant/user REST backend

Shallow embedding of `src/api/restaurants/restaurantsController.js` (the
restaurants router, the users router and the multer upload middleware) and
the GridFS blob interactions it performs.  Express routing, the MongoDB
driver's wire protocol and stream plumbing are external collaborators: the
embedding models the handler bodies themselves — the validation branches,
the queries they issue against the document store, the mutations they apply
and the responses they emit — over explicit list-valued stores.

Documents are modelled as Lean structures carrying the fields the handlers
read or write; free-form request bodies are structures of `Option` fields
(`none` = the key is absent from the JSON body, mirroring `undefined`).
MongoDB `ObjectId` values are modelled as strings together with the
driver's syntactic validity check.
-/

/-- JS truthiness of an optional string request field:
`undefined` and `""` are falsy, every other string is truthy
(mirrors `if (!ownerId)`-style checks in the handlers). -/
def jsTruthy : Option String → Bool
  | none => false
  | some s => !(s == "")

/-- `ObjectId.isValid` from the mongodb driver: accepts a 12-character
byte string or a 24-character hexadecimal string. -/
def isValidObjectId (s : String) : Bool :=
  s.length == 12 || (s.length == 24 && s.toList.all (fun c => c.isDigit
    || ("abcdefABCDEF".toList.contains c)))

/-- A restaurant document.  `rid` is the store-generated `_id`.
`name`/`cuisine`/`address` are optional because create accepts an
arbitrary body; `extra` is not modelled (no claim reads other fields). -/
structure Restaurant where
  rid : String
  ownerId : String
  name : Option String
  cuisine : Option String
  address : Option String
  searchScore : Int
  pictureId : Option Nat
  createdAt : Nat
deriving Repr, DecidableEq

/-- The `restaurants` collection: the document store's state. -/
abbrev RestaurantDB := List Restaurant

/-- A GridFS blob object in the `restaurantImages` bucket, with the
metadata `openUploadStream` attaches (content type, owning restaurant id,
upload date) and its byte size. -/
structure Blob where
  bid : Nat
  filename : String
  contentType : Option String
  size : Nat
  restaurantId : Option String
  uploadDate : Nat
deriving Repr, DecidableEq

/-- The blob store's state. -/
abbrev BlobStore := List Blob

/-- The filter object a handler passes to `find`/`countDocuments`:
either `{}` or a single-field case-insensitive regex filter. -/
inductive DocFilter where
  | all
  | regexMatch (field : String) (query : String)
deriving Repr, DecidableEq

/-- A query issued against the document store by a read handler. -/
inductive StoreOp where
  | find (filter : DocFilter) (skip : Int) (limit : Int)
  | countDocuments (filter : DocFilter)
deriving Repr, DecidableEq

/-- Read one of the three searchable string fields off a document
(`none` when the document lacks the field or the name is not one of them). -/
def getStrField (r : Restaurant) (f : String) : Option String :=
  if f == "name" then r.name
  else if f == "cuisine" then r.cuisine
  else if f == "address" then r.address
  else none

/-- Case-insensitive substring containment, the semantics of the
`{ $regex: query, $options: "i" }` filter on plain (metacharacter-free)
query strings. -/
def ciContains (hay needle : String) : Bool :=
  ((hay.toList.map Char.toLower).tails).any
    (fun t => (needle.toList.map Char.toLower).isPrefixOf t)

/-- Whether a document matches a filter. -/
def matchesFilter (flt : DocFilter) (r : Restaurant) : Bool :=
  match flt with
  | .all => true
  | .regexMatch f q =>
    match getStrField r f with
    | none => false
    | some v => ciContains v q

/-- Insert into a list kept ordered by `le`. -/
def insertLe (le : α → α → Bool) (x : α) : List α → List α
  | [] => [x]
  | y :: ys => if le x y then x :: y :: ys else y :: insertLe le x ys

/-- Insertion sort by a boolean comparator (models the store's sort). -/
def sortLe (le : α → α → Bool) : List α → List α
  | [] => []
  | x :: xs => insertLe le x (sortLe le xs)

/-- Comparator for `.sort({ searchScore: -1 })`: higher score first. -/
def scoreDescLe (a b : Restaurant) : Bool := b.searchScore ≤ a.searchScore

/-- Ascending order on an optional string field (a missing field sorts
first, as in MongoDB). -/
def optStrLe (a b : Option String) : Bool :=
  match a, b with
  | none, _ => true
  | some _, none => false
  | some x, some y => x ≤ y

/-- Comparator for the search sort `{ searchScore: -1, [sortBy]: dir }`:
score descending first, then the user-chosen field in the chosen
direction. -/
def searchSortLe (sortBy : String) (descOrder : Bool) (a b : Restaurant) : Bool :=
  if a.searchScore == b.searchScore then
    if descOrder then optStrLe (getStrField b sortBy) (getStrField a sortBy)
    else optStrLe (getStrField a sortBy) (getStrField b sortBy)
  else b.searchScore ≤ a.searchScore

/-- The pagination metadata object both paged handlers emit. -/
structure Pagination where
  currentPage : Int
  totalPages : Nat
  totalResults : Nat
  resultsPerPage : Int
  hasNextPage : Bool
  hasPrevPage : Bool
deriving Repr, DecidableEq

/-- `Math.ceil(total / size)` for a natural total and positive natural
size (the regime in which the handlers' JS arithmetic is finite). -/
def jsCeilDiv (total s : Nat) : Nat := (total + s - 1) / s

/-- Build the pagination envelope exactly as both handlers do:
`totalPages = Math.ceil(totalCount / limitNum)`,
`hasNextPage = pageNum < totalPages`, `hasPrevPage = pageNum > 1`. -/
def mkPagination (pageNum limitNum : Int) (totalCount : Nat) : Pagination :=
  let tp := jsCeilDiv totalCount limitNum.toNat
  { currentPage := pageNum
    totalPages := tp
    totalResults := totalCount
    resultsPerPage := limitNum
    hasNextPage := pageNum < (tp : Int)
    hasPrevPage := pageNum > 1 }

/-- `GET /` (list).  Inputs are the already-parsed `page` and `limit`
query integers (defaults 1 and 50 applied upstream).  Returns the store
operations issued, the result page and the pagination metadata.
`limitNum = Math.min(limit, 100)`, `skip = (pageNum - 1) * limitNum`;
the result page is modelled for non-negative skip/limit (the driver
rejects negatives, yielding the catch-all 500 — not claimed here). -/
def listHandler (store : RestaurantDB) (pageNum limit : Int) :
    List StoreOp × List Restaurant × Pagination :=
  let limitNum := min limit 100
  let skip := (pageNum - 1) * limitNum
  let sorted := sortLe scoreDescLe store
  let results := (sorted.drop skip.toNat).take limitNum.toNat
  let totalCount := store.length
  ([.find .all skip limitNum, .countDocuments .all],
   results, mkPagination pageNum limitNum totalCount)

/-- The parsed query parameters of `GET /search` (defaults `page = 1`,
`limit = 10`, `sortBy = "name"`, `sortOrder = "asc"` applied upstream;
`field`/`query` are `none` when the query string lacks them). -/
structure SearchParams where
  field : Option String
  query : Option String
  page : Int
  limit : Int
  sortBy : String
  sortOrder : String
deriving Repr, DecidableEq

/-- The allow-list the search handler validates `field` against. -/
def allowedFields : List String := ["name", "cuisine", "address"]

/-- Response of the search handler. -/
inductive SearchResult where
  | invalidField
  | ok (restaurants : List Restaurant) (pagination : Pagination)
deriving Repr, DecidableEq

/-- HTTP status of a search response. -/
def SearchResult.status : SearchResult → Nat
  | .invalidField => 400
  | .ok _ _ => 200

/-- The query/sort/paginate tail shared by both branches of the search
handler. -/
def searchRun (store : RestaurantDB) (flt : DocFilter) (p : SearchParams) :
    List StoreOp × SearchResult :=
  let limitNum := min p.limit 100
  let skip := (p.page - 1) * limitNum
  let filtered := store.filter (matchesFilter flt)
  let sorted := sortLe (searchSortLe p.sortBy (p.sortOrder == "desc")) filtered
  let results := (sorted.drop skip.toNat).take limitNum.toNat
  ([.find flt skip limitNum, .countDocuments flt],
   .ok results (mkPagination p.page limitNum filtered.length))

/-- `GET /search`.  The field allow-list check runs only inside
`if (field && query)`; otherwise the filter is `{}`. -/
def searchHandler (store : RestaurantDB) (p : SearchParams) :
    List StoreOp × SearchResult :=
  if jsTruthy p.field && jsTruthy p.query then
    if !(allowedFields.contains (p.field.getD (""))) then ([], .invalidField)
    else searchRun store (.regexMatch (p.field.getD ("")) (p.query.getD (""))) p
  else searchRun store .all p

/-- Request body of `POST /` (create restaurant), destructured as
`const { ownerId, ...restaurantData } = req.body`.  Optional fields model
keys that may or may not be present in the free-form JSON body. -/
structure CreateBody where
  ownerId : Option String
  name : Option String
  cuisine : Option String
  address : Option String
  searchScore : Option Int
  createdAt : Option Nat
  pictureId : Option Nat
deriving Repr, DecidableEq

/-- Response of the create-restaurant handler. -/
inductive CreateResult where
  | missingOwner
  | duplicateOwner
  | created (restaurantId : String)
deriving Repr, DecidableEq

/-- HTTP status of a create-restaurant response. -/
def CreateResult.status : CreateResult → Nat
  | .missingOwner => 400
  | .duplicateOwner => 400
  | .created _ => 201

/-- `POST /`: reject a falsy `ownerId`; reject when `findOne({ ownerId })`
hits; otherwise insert `{ ...restaurantData, ownerId, searchScore: 10,
createdAt: now }` (the stamped fields spread after the body, so they win)
and answer 201 with the store-generated id `newId`. -/
def createRestaurant (db : RestaurantDB) (newId : String) (now : Nat)
    (b : CreateBody) : RestaurantDB × CreateResult :=
  if !(jsTruthy b.ownerId) then (db, .missingOwner)
  else
    let o := b.ownerId.getD ("")
    if (db.find? (fun r => r.ownerId == o)).isSome then (db, .duplicateOwner)
    else
      let r : Restaurant :=
        { rid := newId, ownerId := o, name := b.name, cuisine := b.cuisine
          address := b.address, searchScore := 10, pictureId := b.pictureId
          createdAt := now }
      (db ++ [r], .created newId)

/-- Request body of `PATCH /:id`, destructured as
`const { ownerId, ...updateData } = req.body`.  Every field other than
`ownerId` that is present lands in the `$set`. -/
structure PatchBody where
  ownerId : Option String
  name : Option String
  cuisine : Option String
  address : Option String
  searchScore : Option Int
  createdAt : Option Nat
  pictureId : Option Nat
deriving Repr, DecidableEq

/-- Apply `{ $set: updateData }` to a document: each field present in the
body replaces the stored value, absent fields are untouched, `ownerId`
was destructured out beforehand so ownership never changes. -/
def applySet (r : Restaurant) (b : PatchBody) : Restaurant :=
  { r with
    name := if b.name.isSome then b.name else r.name
    cuisine := if b.cuisine.isSome then b.cuisine else r.cuisine
    address := if b.address.isSome then b.address else r.address
    searchScore := b.searchScore.getD r.searchScore
    createdAt := b.createdAt.getD r.createdAt
    pictureId := if b.pictureId.isSome then b.pictureId else r.pictureId }

/-- Response of the update-restaurant handler. -/
inductive PatchResult where
  | invalidId
  | missingOwner
  | notFound
  | forbidden
  | updated (modifiedCount : Nat)
deriving Repr, DecidableEq

/-- HTTP status of an update-restaurant response. -/
def PatchResult.status : PatchResult → Nat
  | .invalidId => 400
  | .missingOwner => 400
  | .notFound => 404
  | .forbidden => 403
  | .updated _ => 200

/-- `findOne({ _id: new ObjectId(id) })` on the collection. -/
def findById (db : RestaurantDB) (idStr : String) : Option Restaurant :=
  db.find? (fun r => r.rid == idStr)

/-- `PATCH /:id`: invalid-id 400, falsy body `ownerId` 400; `findOne` by
id, 404 if absent; 403 if the stored `ownerId` differs from the supplied
one; otherwise `updateOne` with the body minus `ownerId` and 200 with the
driver's `modifiedCount`. -/
def patchRestaurant (db : RestaurantDB) (idStr : String) (b : PatchBody) :
    RestaurantDB × PatchResult :=
  if !(isValidObjectId idStr) then (db, .invalidId)
  else if !(jsTruthy b.ownerId) then (db, .missingOwner)
  else
    match findById db idStr with
    | none => (db, .notFound)
    | some r =>
      if !(r.ownerId == b.ownerId.getD ("")) then (db, .forbidden)
      else
        (db.map (fun x => if x.rid == idStr then applySet x b else x),
         .updated (if applySet r b == r then 0 else 1))

/-- Response of the delete-restaurant handler. -/
inductive DeleteResult where
  | invalidId
  | missingOwner
  | notFound
  | forbidden
  | deleted (deletedCount : Nat)
deriving Repr, DecidableEq

/-- HTTP status of a delete-restaurant response. -/
def DeleteResult.status : DeleteResult → Nat
  | .invalidId => 400
  | .missingOwner => 400
  | .notFound => 404
  | .forbidden => 403
  | .deleted _ => 200

/-- `DELETE /:id`: same id/ownership gauntlet as update (`ownerId` comes
from the query string), then `deleteOne` by id and 200 with
`deletedCount`. -/
def deleteRestaurant (db : RestaurantDB) (idStr : String)
    (ownerId : Option String) : RestaurantDB × DeleteResult :=
  if !(isValidObjectId idStr) then (db, .invalidId)
  else if !(jsTruthy ownerId) then (db, .missingOwner)
  else
    match findById db idStr with
    | none => (db, .notFound)
    | some r =>
      if !(r.ownerId == ownerId.getD ("")) then (db, .forbidden)
      else
        (db.filter (fun x => !(x.rid == idStr)), .deleted 1)

/-- A user document as the users router inserts it. -/
structure User where
  uid : String
  email : String
  name : String
  role : String
  isEmailVerified : Bool
  createdAt : Nat
  updatedAt : Nat
deriving Repr, DecidableEq

/-- The `users` collection. -/
abbrev UserDB := List User

/-- Request body of `POST /users` (optional fields: absent JSON keys). -/
structure UserBody where
  uid : Option String
  email : Option String
  name : Option String
  role : Option String
  isEmailVerified : Option Bool
deriving Repr, DecidableEq

/-- The role enumeration the users router accepts. -/
def allowedRoles : List String := ["user", "restaurantOwner"]

/-- Response of the create-user handler. -/
inductive UserCreateResult where
  | missingFields
  | invalidRole
  | conflict
  | created (u : User)
deriving Repr, DecidableEq

/-- HTTP status of a create-user response. -/
def UserCreateResult.status : UserCreateResult → Nat
  | .missingFields => 400
  | .invalidRole => 400
  | .conflict => 409
  | .created _ => 201

/-- `POST /users`: 400 if any of `uid`/`email`/`name`/`role` is falsy;
400 if `role` is outside the enumeration; 409 if `findOne({ uid })` hits;
otherwise insert `{ uid, email, name, role,
isEmailVerified: isEmailVerified || false, createdAt: now,
updatedAt: now }` and answer 201. -/
def createUser (db : UserDB) (now : Nat) (b : UserBody) :
    UserDB × UserCreateResult :=
  if !(jsTruthy b.uid && jsTruthy b.email && jsTruthy b.name
      && jsTruthy b.role) then (db, .missingFields)
  else if !(allowedRoles.contains (b.role.getD (""))) then (db, .invalidRole)
  else if (db.find? (fun u => u.uid == b.uid.getD (""))).isSome then
    (db, .conflict)
  else
    let u : User :=
      { uid := b.uid.getD (""), email := b.email.getD ("")
        name := b.name.getD (""), role := b.role.getD ("")
        isEmailVerified := b.isEmailVerified.getD false
        createdAt := now, updatedAt := now }
    (db ++ [u], .created u)

/-- An in-memory uploaded file as multer hands it to the handler. -/
structure UploadedFile where
  originalname : String
  mimetype : String
  size : Nat
deriving Repr, DecidableEq

/-- `mimetype.startsWith("image/")`, the multer `fileFilter` test
(expressed over character lists so it evaluates by `decide`). -/
def mimeIsImage (m : String) : Bool := "image/".toList.isPrefixOf m.toList

/-- `limits: { fileSize: 5 * 1024 * 1024 }` of the multer configuration. -/
def fileSizeLimit : Nat := 5 * 1024 * 1024

/-- Outcome of the `upload.single("picture")` middleware. -/
inductive MulterOutcome where
  | rejectedType
  | rejectedSize
  | passed (file : Option UploadedFile)
deriving Repr, DecidableEq

/-- The multer middleware: with no file part it passes `none` through;
with a file, `fileFilter` rejects any mimetype not starting in `image/`
(before the stream is consumed), then the `fileSize` limit rejects
payloads above 5 MiB; otherwise the file reaches the handler. -/
def multerSingle (file : Option UploadedFile) : MulterOutcome :=
  match file with
  | none => .passed none
  | some f =>
    if !(mimeIsImage f.mimetype) then .rejectedType
    else if fileSizeLimit < f.size then .rejectedSize
    else .passed (some f)

/-- Response of the upload-picture handler body. -/
inductive UploadResult where
  | invalidId
  | noFile
  | restNotFound
  | uploaded (fileId : Nat) (filename : String)
  | streamFailed
deriving Repr, DecidableEq

/-- HTTP status of an upload-picture handler response. -/
def UploadResult.status : UploadResult → Nat
  | .invalidId => 400
  | .noFile => 400
  | .restNotFound => 404
  | .uploaded _ _ => 200
  | .streamFailed => 500

/-- Whole-request outcome of `POST /:id/picture`: either the middleware
rejected the payload before the handler body ran, or the handler body's
response. -/
inductive UploadOutcome where
  | typeRejected
  | sizeRejected
  | handler (r : UploadResult)
deriving Repr, DecidableEq

/-- The "delete old picture if exists" step: `bucket.delete(oldId)` is
attempted and any failure is swallowed (`deleteOk = false` models the
failure, which the handler only logs). -/
def deleteOldBlob (blobs : BlobStore) (pic : Option Nat)
    (deleteOk : Bool) : BlobStore :=
  match pic with
  | some oldId =>
    if deleteOk then blobs.filter (fun b => !(b.bid == oldId)) else blobs
  | none => blobs

/-- The body of `POST /:id/picture` (after the middleware): validate the
id, require a file, `findOne` the restaurant (404 if absent); if the
document holds a `pictureId`, try `bucket.delete` on it and swallow any
failure (`deleteOk = false` models the failure, only logged); then stream
the buffer into GridFS under the fresh id `newBlobId` (`streamOk = false`
models a stream error → 500, with the old-blob deletion already done);
on finish, `$set { pictureId }` on the document and answer 200 with the
file id and the original filename. -/
def uploadPictureBody (db : RestaurantDB) (blobs : BlobStore)
    (idStr : String) (file : Option UploadedFile) (deleteOk streamOk : Bool)
    (newBlobId : Nat) (now : Nat) :
    RestaurantDB × BlobStore × UploadResult :=
  if !(isValidObjectId idStr) then (db, blobs, .invalidId)
  else
    match file with
    | none => (db, blobs, .noFile)
    | some f =>
      match findById db idStr with
      | none => (db, blobs, .restNotFound)
      | some r =>
        let blobs1 := deleteOldBlob blobs r.pictureId deleteOk
        if streamOk then
          let nb : Blob :=
            { bid := newBlobId, filename := f.originalname
              contentType := some f.mimetype, size := f.size
              restaurantId := some idStr, uploadDate := now }
          (db.map (fun x => if x.rid == idStr then
              { x with pictureId := some newBlobId } else x),
           blobs1 ++ [nb], .uploaded newBlobId f.originalname)
        else (db, blobs1, .streamFailed)

/-- The full `POST /:id/picture` pipeline: the multer middleware, then
the handler body. -/
def uploadPicture (db : RestaurantDB) (blobs : BlobStore) (idStr : String)
    (file : Option UploadedFile) (deleteOk streamOk : Bool)
    (newBlobId : Nat) (now : Nat) :
    RestaurantDB × BlobStore × UploadOutcome :=
  match multerSingle file with
  | .rejectedType => (db, blobs, .typeRejected)
  | .rejectedSize => (db, blobs, .sizeRejected)
  | .passed f =>
    ((uploadPictureBody db blobs idStr f deleteOk streamOk newBlobId now).1,
     (uploadPictureBody db blobs idStr f deleteOk streamOk newBlobId now).2.1,
     .handler
       (uploadPictureBody db blobs idStr f deleteOk streamOk newBlobId
         now).2.2)

/-- Response of `GET /:id/picture`. -/
inductive DownloadResult where
  | invalidId
  | restNotFound
  | noPicture
  | fileMissing
  | streamError
  | streamed (contentType : String)
deriving Repr, DecidableEq

/-- HTTP status of a download-picture response (a stream error is
answered 404, the deliberate simplification the handler codes in its
`downloadStream.on("error")` callback). -/
def DownloadResult.status : DownloadResult → Nat
  | .invalidId => 400
  | .restNotFound => 404
  | .noPicture => 404
  | .fileMissing => 404
  | .streamError => 404
  | .streamed _ => 200

/-- `GET /:id/picture`: validate the id; 404 if the restaurant is absent
or has no `pictureId`; 404 if `bucket.find` returns no file document;
otherwise stream with `contentType || "image/jpeg"`, and a stream error
(`streamOk = false`) is answered 404, not 500. -/
def downloadPicture (db : RestaurantDB) (blobs : BlobStore)
    (idStr : String) (streamOk : Bool) : DownloadResult :=
  if !(isValidObjectId idStr) then .invalidId
  else
    match findById db idStr with
    | none => .restNotFound
    | some r =>
      match r.pictureId with
      | none => .noPicture
      | some pid =>
        match blobs.find? (fun b => b.bid == pid) with
        | none => .fileMissing
        | some b =>
          if streamOk then .streamed (b.contentType.getD ("image/jpeg"))
          else .streamError

/-- Modelled from the spec: the HTTP status attached to an
upload-middleware rejection is produced by the HTTP framework's
error-handling wiring, which is not part of this repository's source;
the spec classes these rejections as client errors (400). -/
def middlewareRejectStatus : Nat := 400

/-- HTTP status of a whole upload-request outcome. -/
def UploadOutcome.status : UploadOutcome → Nat
  | .typeRejected => middlewareRejectStatus
  | .sizeRejected => middlewareRejectStatus
  | .handler r => r.status

/-- `tp` is the ceiling of `total / size`: `tp * size` covers `total`,
and `tp` is least among naturals whose multiple of `size` does. -/
def IsCeilOf (tp total : Nat) (size : Int) : Prop :=
  (total : Int) ≤ (tp : Int) * size ∧
    ∀ m : Nat, (total : Int) ≤ (m : Int) * size → tp ≤ m

/-- A concrete restaurant document used to exercise the handlers. -/
def demoRestaurant : Restaurant :=
  { rid := "aaaaaaaaaaaaaaaaaaaaaaaa", ownerId := "owner1"
    name := some ("Pizza Place"), cuisine := some ("Italian")
    address := some ("1 Main St"), searchScore := 10
    pictureId := none, createdAt := 0 }

/-- A one-document store. -/
def demoStore : RestaurantDB := [demoRestaurant]

/-- Well-formed search parameters (the defaults). -/
def demoSearchParams : SearchParams :=
  { field := none, query := none, page := 1, limit := 10
    sortBy := "name", sortOrder := "asc" }

/-- Search parameters with a disallowed `field` and no `query`. -/
def demoBadFieldNoQuery : SearchParams :=
  { field := some ("evil"), query := none, page := 1, limit := 10
    sortBy := "name", sortOrder := "asc" }

/-- Search parameters with a disallowed `field` and a `query`. -/
def demoBadFieldWithQuery : SearchParams :=
  { field := some ("evil"), query := some ("pizza"), page := 1, limit := 10
    sortBy := "name", sortOrder := "asc" }

/-- A create body for a fresh owner. -/
def demoCreateBody : CreateBody :=
  { ownerId := some ("owner2"), name := some ("Cafe Uno")
    cuisine := some ("French"), address := none, searchScore := none
    createdAt := none, pictureId := none }

/-- A patch body carrying a `createdAt` key under the correct owner. -/
def demoPatchCreatedAt : PatchBody :=
  { ownerId := some ("owner1"), name := none, cuisine := none
    address := none, searchScore := none, createdAt := some 99
    pictureId := none }

/-- A patch body under a wrong owner, without `createdAt`. -/
def demoPatchWrongOwner : PatchBody :=
  { ownerId := some ("intruder"), name := some ("Stolen"), cuisine := none
    address := none, searchScore := none, createdAt := none
    pictureId := none }

/-- A concrete in-memory image file. -/
def demoImageFile : UploadedFile :=
  { originalname := "logo.png", mimetype := "image/png", size := 2048 }

/-- A concrete non-image file. -/
def demoTextFile : UploadedFile :=
  { originalname := "notes.txt", mimetype := "text/plain", size := 10 }

/-- A restaurant that already carries a picture reference. -/
def demoPicRestaurant : Restaurant :=
  { demoRestaurant with pictureId := some 7 }

/-- The blob the picture reference points at. -/
def demoOldBlob : Blob :=
  { bid := 7, filename := "old.png", contentType := some ("image/png")
    size := 100, restaurantId := some ("aaaaaaaaaaaaaaaaaaaaaaaa")
    uploadDate := 0 }

/-- A store holding the restaurant with a picture, and its blob. -/
def demoPicStore : RestaurantDB := [demoPicRestaurant]

/-- The blob store holding the old picture. -/
def demoBlobs : BlobStore := [demoOldBlob]

/-- A concrete user-create body. -/
def demoUserBody : UserBody :=
  { uid := some ("u1"), email := some ("a@b.c"), name := some ("Ann")
    role := some ("user"), isEmailVerified := none }

lemma jsCeilDiv_ge (total s : Nat) (hs : 0 < s) :
    total ≤ jsCeilDiv total s * s := by
  by_contra hlt
  push_neg at hlt
  have h2 : (jsCeilDiv total s + 1) * s ≤ total + s - 1 := by
    rw [Nat.add_mul, one_mul]
    unfold jsCeilDiv at hlt ⊢
    omega
  have h3 : jsCeilDiv total s + 1 ≤ (total + s - 1) / s :=
    (Nat.le_div_iff_mul_le hs).mpr h2
  unfold jsCeilDiv at h3
  omega

lemma jsCeilDiv_le (total s m : Nat) (hs : 0 < s) (hm : total ≤ m * s) :
    jsCeilDiv total s ≤ m := by
  have h1 : total + s - 1 < (m + 1) * s := by
    rw [Nat.add_mul, one_mul]
    omega
  have h2 : (total + s - 1) / s < m + 1 := (Nat.div_lt_iff_lt_mul hs).mpr h1
  unfold jsCeilDiv
  omega

lemma mkPagination_isCeil (page limitNum : Int) (total : Nat)
    (h : 0 < limitNum) :
    IsCeilOf (mkPagination page limitNum total).totalPages total limitNum := by
  have hs : 0 < limitNum.toNat := by omega
  have he : ((limitNum.toNat : Nat) : Int) = limitNum :=
    Int.toNat_of_nonneg (by omega)
  have htp : (mkPagination page limitNum total).totalPages
      = jsCeilDiv total limitNum.toNat := rfl
  constructor
  · have h1 := jsCeilDiv_ge total limitNum.toNat hs
    have h2 : (total : Int) ≤ ((jsCeilDiv total limitNum.toNat : Nat) : Int)
        * ((limitNum.toNat : Nat) : Int) := by exact_mod_cast h1
    rw [he] at h2
    rw [htp]
    exact h2
  · intro m hm
    rw [htp]
    apply jsCeilDiv_le total limitNum.toNat m hs
    rw [← he] at hm
    exact_mod_cast hm

lemma mkPagination_hasNext (page limitNum : Int) (total : Nat) :
    (mkPagination page limitNum total).hasNextPage = true ↔
      (mkPagination page limitNum total).currentPage
        < ((mkPagination page limitNum total).totalPages : Int) := by
  simp [mkPagination]

lemma searchRun_eq (store : RestaurantDB) (flt : DocFilter) (p : SearchParams) :
    searchRun store flt p =
      ([.find flt ((p.page - 1) * min p.limit 100) (min p.limit 100),
        .countDocuments flt],
       .ok (((sortLe (searchSortLe p.sortBy (p.sortOrder == "desc"))
              (store.filter (matchesFilter flt))).drop
                ((p.page - 1) * min p.limit 100).toNat).take
                  (min p.limit 100).toNat)
           (mkPagination p.page (min p.limit 100)
              (store.filter (matchesFilter flt)).length)) := rfl

lemma searchRun_pagination (store : RestaurantDB) (flt : DocFilter)
    (p : SearchParams) (hp : 0 < p.limit) :
    ∀ ops rs pg, searchRun store flt p = (ops, .ok rs pg) →
      pg.resultsPerPage ≤ 100
      ∧ ops = [.find flt ((p.page - 1) * pg.resultsPerPage) pg.resultsPerPage,
               .countDocuments flt]
      ∧ (pg.hasNextPage = true ↔ pg.currentPage < (pg.totalPages : Int))
      ∧ IsCeilOf pg.totalPages pg.totalResults pg.resultsPerPage := by
  intro ops rs pg h
  rw [searchRun_eq] at h
  injection h with h1 h2
  injection h2 with hrs hpg
  subst h1
  subst hpg
  refine ⟨min_le_right _ _, rfl, mkPagination_hasNext _ _ _, ?_⟩
  exact mkPagination_isCeil _ _ _ (lt_min hp (by norm_num))

/-- C1.  For every List and Search request (inputs the parsed positive
`page`/`limit` integers), the handler queries the store with offset
`(page - 1) * size`, reports `totalPages` as the ceiling of
`totalResults / resultsPerPage`, reports `hasNextPage` iff
`currentPage < totalPages`, and `resultsPerPage` never exceeds 100
regardless of the requested limit. -/
theorem pagination_envelope_correct (store : RestaurantDB)
    (page limit : Int) (p : SearchParams) (hl : 0 < limit)
    (hp : 0 < p.limit) :
    ((listHandler store page limit).2.2.resultsPerPage ≤ 100
     ∧ (listHandler store page limit).1 =
        [.find .all
           ((page - 1) * (listHandler store page limit).2.2.resultsPerPage)
           (listHandler store page limit).2.2.resultsPerPage,
         .countDocuments .all]
     ∧ ((listHandler store page limit).2.2.hasNextPage = true ↔
          (listHandler store page limit).2.2.currentPage
            < ((listHandler store page limit).2.2.totalPages : Int))
     ∧ IsCeilOf (listHandler store page limit).2.2.totalPages
         (listHandler store page limit).2.2.totalResults
         (listHandler store page limit).2.2.resultsPerPage)
    ∧ (∀ ops rs pg, searchHandler store p = (ops, .ok rs pg) →
        pg.resultsPerPage ≤ 100
        ∧ (∃ flt, ops = [.find flt ((p.page - 1) * pg.resultsPerPage)
                           pg.resultsPerPage,
                         .countDocuments flt])
        ∧ (pg.hasNextPage = true ↔ pg.currentPage < (pg.totalPages : Int))
        ∧ IsCeilOf pg.totalPages pg.totalResults pg.resultsPerPage) := by
  constructor
  · refine ⟨min_le_right _ _, rfl, mkPagination_hasNext _ _ _, ?_⟩
    exact mkPagination_isCeil _ _ _ (lt_min hl (by norm_num))
  · intro ops rs pg h
    unfold searchHandler at h
    split at h
    · split at h
      · have h2 := congrArg Prod.snd h
        exact absurd h2 (by simp)
      · have := searchRun_pagination store
          (.regexMatch (p.field.getD ("")) (p.query.getD (""))) p hp ops rs pg h
        exact ⟨this.1, ⟨_, this.2.1⟩, this.2.2⟩
    · have := searchRun_pagination store .all p hp ops rs pg h
      exact ⟨this.1, ⟨_, this.2.1⟩, this.2.2⟩

/-- Witness for C1 at a concrete store and concrete positive inputs. -/
theorem pagination_envelope_correct_witness :
    (0 : Int) < 50 ∧ (0 : Int) < demoSearchParams.limit ∧
      (listHandler demoStore 1 50).2.2.resultsPerPage ≤ 100 :=
  ⟨by norm_num, by decide,
   (pagination_envelope_correct demoStore 1 50 demoSearchParams
      (by norm_num) (by decide)).1.1⟩

/-- C2 counterexample: with `field = "evil"` (present, outside the
allow-list) but no `query`, the handler does NOT answer 400 — it issues
store queries and answers 200, because the allow-list check only runs
inside `if (field && query)`. -/
theorem search_bad_field_counterexample :
    (searchHandler demoStore demoBadFieldNoQuery).1 ≠ []
    ∧ (searchHandler demoStore demoBadFieldNoQuery).2.status = 200 := by
  constructor
  · decide
  · decide

/-- C2 amended: when `field` AND `query` are both present (truthy) and
`field` is outside the allow-list, the handler answers 400 and issues no
store query; with `query` absent the field is ignored and an unfiltered
query runs. -/
theorem search_bad_field_rejected (store : RestaurantDB) (p : SearchParams)
    (hf : jsTruthy p.field = true) (hq : jsTruthy p.query = true)
    (hbad : allowedFields.contains (p.field.getD ("")) = false) :
    searchHandler store p = ([], .invalidField)
    ∧ (searchHandler store p).2.status = 400 := by
  have h : searchHandler store p = ([], .invalidField) := by
    unfold searchHandler
    rw [hf, hq, hbad]
    rfl
  exact ⟨h, by rw [h]; rfl⟩

/-- Witness for C2-amended at a concrete store and parameters. -/
theorem search_bad_field_rejected_witness :
    jsTruthy demoBadFieldWithQuery.field = true
    ∧ jsTruthy demoBadFieldWithQuery.query = true
    ∧ allowedFields.contains (demoBadFieldWithQuery.field.getD ("")) = false
    ∧ searchHandler demoStore demoBadFieldWithQuery = ([], .invalidField) :=
  ⟨by decide, by decide, by decide,
   (search_bad_field_rejected demoStore demoBadFieldWithQuery
      (by decide) (by decide) (by decide)).1⟩

lemma createRestaurant_missingOwner (db : RestaurantDB) (newId : String)
    (now : Nat) (b : CreateBody) (h : b.ownerId = none) :
    createRestaurant db newId now b = (db, .missingOwner) := by
  unfold createRestaurant
  rw [h]
  rfl

lemma createRestaurant_duplicate (db : RestaurantDB) (newId : String)
    (now : Nat) (b : CreateBody) (o : String) (ho : b.ownerId = some o)
    (hne : o ≠ "") (r : Restaurant) (hr : r ∈ db) (hro : r.ownerId = o) :
    createRestaurant db newId now b = (db, .duplicateOwner) := by
  have hfind : (db.find? (fun x => x.ownerId == o)).isSome = true := by
    rw [List.find?_isSome]
    exact ⟨r, hr, by simp [hro]⟩
  simp [createRestaurant, jsTruthy, ho, hne, hfind]

lemma createRestaurant_fresh (db : RestaurantDB) (newId : String)
    (now : Nat) (b : CreateBody) (o : String) (ho : b.ownerId = some o)
    (hne : o ≠ "") (hnone : ∀ r ∈ db, r.ownerId ≠ o) :
    createRestaurant db newId now b =
      (db ++ [⟨newId, o, b.name, b.cuisine, b.address, 10, b.pictureId, now⟩],
       .created newId) := by
  have hfind : db.find? (fun x => x.ownerId == o) = none := by
    rw [List.find?_eq_none]
    intro x hx
    simp [hnone x hx]
  simp [createRestaurant, jsTruthy, ho, hne, hfind]

/-- C3.  Create-restaurant: a missing `ownerId` fails 400; an existing
restaurant with the same `ownerId` fails 400 (duplicate ownership), so
the second of two back-to-back creates with one `ownerId` fails;
otherwise the body is inserted with `searchScore = 10` and
`createdAt = now`, and the store-generated id is returned with 201. -/
theorem create_restaurant_rules (db : RestaurantDB) (newId newId2 : String)
    (now now2 : Nat) (b b2 : CreateBody) :
    (b.ownerId = none →
      createRestaurant db newId now b = (db, .missingOwner)
      ∧ (createRestaurant db newId now b).2.status = 400)
    ∧ (∀ o, b.ownerId = some o → o ≠ "" →
        ((∃ r ∈ db, r.ownerId = o) →
          createRestaurant db newId now b = (db, .duplicateOwner)
          ∧ (createRestaurant db newId now b).2.status = 400)
        ∧ ((∀ r ∈ db, r.ownerId ≠ o) →
            createRestaurant db newId now b =
              (db ++ [⟨newId, o, b.name, b.cuisine, b.address, 10,
                       b.pictureId, now⟩], .created newId)
            ∧ (createRestaurant db newId now b).2.status = 201
            ∧ (b2.ownerId = some o →
                (createRestaurant (createRestaurant db newId now b).1
                   newId2 now2 b2).2 = .duplicateOwner))) := by
  refine ⟨fun h => ?_, fun o ho hne => ⟨fun hdup => ?_, fun hnone => ?_⟩⟩
  · have h1 := createRestaurant_missingOwner db newId now b h
    exact ⟨h1, by rw [h1]; rfl⟩
  · obtain ⟨r, hr, hro⟩ := hdup
    have h1 := createRestaurant_duplicate db newId now b o ho hne r hr hro
    exact ⟨h1, by rw [h1]; rfl⟩
  · have h1 := createRestaurant_fresh db newId now b o ho hne hnone
    refine ⟨h1, by rw [h1]; rfl, fun hb2 => ?_⟩
    have hmem : (⟨newId, o, b.name, b.cuisine, b.address, 10,
        b.pictureId, now⟩ : Restaurant) ∈ (createRestaurant db newId now b).1 := by
      rw [congrArg Prod.fst h1]
      simp
    have h2 := createRestaurant_duplicate (createRestaurant db newId now b).1
      newId2 now2 b2 o hb2 hne _ hmem rfl
    rw [h2]

lemma patchRestaurant_notFound (db : RestaurantDB) (idStr : String)
    (b : PatchBody) (hid : isValidObjectId idStr = true)
    (hbo : jsTruthy b.ownerId = true) (hf : findById db idStr = none) :
    patchRestaurant db idStr b = (db, .notFound) := by
  simp [patchRestaurant, hid, hbo, hf]

lemma patchRestaurant_forbidden (db : RestaurantDB) (idStr : String)
    (b : PatchBody) (r : Restaurant) (hid : isValidObjectId idStr = true)
    (hbo : jsTruthy b.ownerId = true) (hf : findById db idStr = some r)
    (hown : r.ownerId ≠ b.ownerId.getD ("")) :
    patchRestaurant db idStr b = (db, .forbidden) := by
  simp [patchRestaurant, hid, hbo, hf, hown]

lemma patchRestaurant_forbidden_exists (db : RestaurantDB) (idStr : String)
    (b : PatchBody) (h : (patchRestaurant db idStr b).2 = .forbidden) :
    ∃ r, findById db idStr = some r := by
  cases hf : findById db idStr with
  | some r => exact ⟨r, rfl⟩
  | none =>
    exfalso
    unfold patchRestaurant at h
    rw [hf] at h
    split at h
    · simp at h
    · split at h
      · simp at h
      · simp at h

lemma deleteRestaurant_notFound (db : RestaurantDB) (idStr : String)
    (qOwner : Option String) (hid : isValidObjectId idStr = true)
    (hqo : jsTruthy qOwner = true) (hf : findById db idStr = none) :
    deleteRestaurant db idStr qOwner = (db, .notFound) := by
  simp [deleteRestaurant, hid, hqo, hf]

lemma deleteRestaurant_forbidden (db : RestaurantDB) (idStr : String)
    (qOwner : Option String) (r : Restaurant)
    (hid : isValidObjectId idStr = true) (hqo : jsTruthy qOwner = true)
    (hf : findById db idStr = some r) (hown : r.ownerId ≠ qOwner.getD ("")) :
    deleteRestaurant db idStr qOwner = (db, .forbidden) := by
  simp [deleteRestaurant, hid, hqo, hf, hown]

lemma deleteRestaurant_forbidden_exists (db : RestaurantDB) (idStr : String)
    (qOwner : Option String)
    (h : (deleteRestaurant db idStr qOwner).2 = .forbidden) :
    ∃ r, findById db idStr = some r := by
  cases hf : findById db idStr with
  | some r => exact ⟨r, rfl⟩
  | none =>
    exfalso
    unfold deleteRestaurant at h
    rw [hf] at h
    split at h
    · simp at h
    · split at h
      · simp at h
      · simp at h

/-- C4.  Update and Delete with a valid id and a supplied ownerId:
a missing document is 404; an existing document whose stored `ownerId`
differs from the supplied one is 403, never 404; the forbidden outcome
arises only after the `findOne` confirmed the document exists. -/
theorem owner_check_404_403 (db : RestaurantDB) (idStr : String)
    (b : PatchBody) (qOwner : Option String)
    (hid : isValidObjectId idStr = true)
    (hbo : jsTruthy b.ownerId = true) (hqo : jsTruthy qOwner = true) :
    (findById db idStr = none →
      (patchRestaurant db idStr b).2 = .notFound
      ∧ (patchRestaurant db idStr b).2.status = 404
      ∧ (deleteRestaurant db idStr qOwner).2 = .notFound
      ∧ (deleteRestaurant db idStr qOwner).2.status = 404)
    ∧ (∀ r, findById db idStr = some r →
        (r.ownerId ≠ b.ownerId.getD ("") →
          (patchRestaurant db idStr b).2 = .forbidden
          ∧ (patchRestaurant db idStr b).2.status = 403)
        ∧ (r.ownerId ≠ qOwner.getD ("") →
          (deleteRestaurant db idStr qOwner).2 = .forbidden
          ∧ (deleteRestaurant db idStr qOwner).2.status = 403))
    ∧ ((patchRestaurant db idStr b).2 = .forbidden →
        ∃ r, findById db idStr = some r)
    ∧ ((deleteRestaurant db idStr qOwner).2 = .forbidden →
        ∃ r, findById db idStr = some r) := by
  refine ⟨fun hf => ?_, fun r hf => ⟨fun hown => ?_, fun hown => ?_⟩,
    patchRestaurant_forbidden_exists db idStr b,
    deleteRestaurant_forbidden_exists db idStr qOwner⟩
  · have h1 := patchRestaurant_notFound db idStr b hid hbo hf
    have h2 := deleteRestaurant_notFound db idStr qOwner hid hqo hf
    exact ⟨by rw [h1], by rw [h1]; rfl, by rw [h2], by rw [h2]; rfl⟩
  · have h1 := patchRestaurant_forbidden db idStr b r hid hbo hf hown
    exact ⟨by rw [h1], by rw [h1]; rfl⟩
  · have h2 := deleteRestaurant_forbidden db idStr qOwner r hid hqo hf hown
    exact ⟨by rw [h2], by rw [h2]; rfl⟩

/-- Witness for C4: a mismatched owner on an existing document is 403. -/
theorem owner_check_404_403_witness :
    isValidObjectId ("aaaaaaaaaaaaaaaaaaaaaaaa") = true
    ∧ findById demoStore ("aaaaaaaaaaaaaaaaaaaaaaaa") = some demoRestaurant
    ∧ demoRestaurant.ownerId ≠ demoPatchWrongOwner.ownerId.getD ("")
    ∧ (patchRestaurant demoStore ("aaaaaaaaaaaaaaaaaaaaaaaa")
        demoPatchWrongOwner).2 = .forbidden :=
  ⟨by decide, by decide, by decide,
   (((owner_check_404_403 demoStore ("aaaaaaaaaaaaaaaaaaaaaaaa")
        demoPatchWrongOwner (some ("intruder")) (by decide) (by decide)
        (by decide)).2.1 demoRestaurant (by decide)).1 (by decide)).1⟩

lemma patchRestaurant_db_cases (db : RestaurantDB) (idStr : String)
    (b : PatchBody) :
    (patchRestaurant db idStr b).1 = db ∨
    (patchRestaurant db idStr b).1 =
      db.map (fun x => if x.rid == idStr then applySet x b else x) := by
  unfold patchRestaurant
  split
  · exact Or.inl rfl
  · split
    · exact Or.inl rfl
    · split
      · exact Or.inl rfl
      · split
        · exact Or.inl rfl
        · exact Or.inr rfl

lemma uploadPictureBody_db_cases (db : RestaurantDB) (blobs : BlobStore)
    (idStr : String) (file : Option UploadedFile) (deleteOk streamOk : Bool)
    (newBlobId now : Nat) :
    (uploadPictureBody db blobs idStr file deleteOk streamOk newBlobId now).1
      = db ∨
    (uploadPictureBody db blobs idStr file deleteOk streamOk newBlobId now).1
      = db.map (fun x => if x.rid == idStr then
          { x with pictureId := some newBlobId } else x) := by
  unfold uploadPictureBody
  split
  · exact Or.inl rfl
  · split
    · exact Or.inl rfl
    · split
      · exact Or.inl rfl
      · cases streamOk
        · exact Or.inl rfl
        · exact Or.inr rfl

/-- C5 counterexample: a partial update whose body carries a `createdAt`
key, under the correct `ownerId`, succeeds (200) and overwrites the
stored `createdAt` (the handler strips only `ownerId` from the `$set`). -/
theorem createdAt_mutable_counterexample :
    (patchRestaurant demoStore ("aaaaaaaaaaaaaaaaaaaaaaaa")
        demoPatchCreatedAt).2.status = 200
    ∧ (∀ r ∈ (patchRestaurant demoStore ("aaaaaaaaaaaaaaaaaaaaaaaa")
        demoPatchCreatedAt).1, r.createdAt = 99)
    ∧ demoRestaurant.createdAt = 0 := by
  exact ⟨by decide, by decide, by decide⟩

/-- C5 amended: `createdAt` is stamped at creation and never changed by
any subsequent operation EXCEPT a partial update whose body itself
supplies a `createdAt` key; in particular every update without
`createdAt` in its body, and every picture upload, preserves each
document's `createdAt` (and its identifier). -/
theorem createdAt_preserved (db : RestaurantDB) (idStr : String)
    (b : PatchBody) (blobs : BlobStore) (file : Option UploadedFile)
    (deleteOk streamOk : Bool) (newBlobId now : Nat)
    (h : b.createdAt = none) :
    (∀ x ∈ (patchRestaurant db idStr b).1,
      ∃ r ∈ db, x.rid = r.rid ∧ x.createdAt = r.createdAt)
    ∧ (∀ x ∈ (uploadPictureBody db blobs idStr file deleteOk streamOk
        newBlobId now).1,
      ∃ r ∈ db, x.rid = r.rid ∧ x.createdAt = r.createdAt) := by
  constructor
  · intro x hx
    rcases patchRestaurant_db_cases db idStr b with hc | hc
    · rw [hc] at hx
      exact ⟨x, hx, rfl, rfl⟩
    · rw [hc] at hx
      rcases List.mem_map.mp hx with ⟨r, hr, hxr⟩
      refine ⟨r, hr, ?_⟩
      subst hxr
      by_cases hrid : (r.rid == idStr) = true
      · rw [if_pos hrid]
        exact ⟨rfl, by simp [applySet, h]⟩
      · rw [if_neg hrid]
        exact ⟨rfl, rfl⟩
  · intro x hx
    rcases uploadPictureBody_db_cases db blobs idStr file deleteOk streamOk
      newBlobId now with hc | hc
    · rw [hc] at hx
      exact ⟨x, hx, rfl, rfl⟩
    · rw [hc] at hx
      rcases List.mem_map.mp hx with ⟨r, hr, hxr⟩
      refine ⟨r, hr, ?_⟩
      subst hxr
      by_cases hrid : (r.rid == idStr) = true
      · rw [if_pos hrid]
        exact ⟨rfl, rfl⟩
      · rw [if_neg hrid]
        exact ⟨rfl, rfl⟩

/-- Witness for C5-amended at a concrete store and bodies. -/
theorem createdAt_preserved_witness :
    demoPatchWrongOwner.createdAt = none ∧
    ∃ r ∈ demoStore, demoRestaurant.rid = r.rid
      ∧ demoRestaurant.createdAt = r.createdAt :=
  ⟨rfl,
   (createdAt_preserved demoStore ("aaaaaaaaaaaaaaaaaaaaaaaa")
      demoPatchWrongOwner demoBlobs none true true 8 1 rfl).1
     demoRestaurant (by decide)⟩

/-- C6.  A picture upload whose payload is not an image type is rejected
by the multer `fileFilter` before the handler body runs: the response is
the middleware rejection (a client error), no blob is created or
deleted, and no restaurant document is modified. -/
theorem nonimage_upload_rejected (db : RestaurantDB) (blobs : BlobStore)
    (idStr : String) (f : UploadedFile) (deleteOk streamOk : Bool)
    (newBlobId now : Nat)
    (h : mimeIsImage f.mimetype = false) :
    uploadPicture db blobs idStr (some f) deleteOk streamOk newBlobId now
      = (db, blobs, .typeRejected)
    ∧ (uploadPicture db blobs idStr (some f) deleteOk streamOk newBlobId
        now).2.2.status = 400 := by
  have h1 : uploadPicture db blobs idStr (some f) deleteOk streamOk
      newBlobId now = (db, blobs, .typeRejected) := by
    simp [uploadPicture, multerSingle, h]
  exact ⟨h1, by rw [h1]; rfl⟩

/-- Witness for C6: a text file is turned away untouched. -/
theorem nonimage_upload_rejected_witness :
    mimeIsImage demoTextFile.mimetype = false
    ∧ uploadPicture demoPicStore demoBlobs ("aaaaaaaaaaaaaaaaaaaaaaaa")
        (some demoTextFile) true true 8 1
      = (demoPicStore, demoBlobs, .typeRejected) :=
  ⟨by decide,
   (nonimage_upload_rejected demoPicStore demoBlobs
      ("aaaaaaaaaaaaaaaaaaaaaaaa") demoTextFile true true 8 1 (by decide)).1⟩

lemma deleteOldBlob_subset (blobs : BlobStore) (pic : Option Nat)
    (deleteOk : Bool) :
    ∀ b ∈ deleteOldBlob blobs pic deleteOk, b ∈ blobs := by
  intro b hb
  unfold deleteOldBlob at hb
  split at hb
  · split at hb
    · exact List.mem_of_mem_filter hb
    · exact hb
  · exact hb

lemma uploadPicture_passes (db : RestaurantDB) (blobs : BlobStore)
    (idStr : String) (f : UploadedFile) (deleteOk streamOk : Bool)
    (newBlobId now : Nat)
    (himg : mimeIsImage f.mimetype = true)
    (hsize : f.size ≤ fileSizeLimit) :
    uploadPicture db blobs idStr (some f) deleteOk streamOk newBlobId now =
      ((uploadPictureBody db blobs idStr (some f) deleteOk streamOk
          newBlobId now).1,
       (uploadPictureBody db blobs idStr (some f) deleteOk streamOk
          newBlobId now).2.1,
       .handler (uploadPictureBody db blobs idStr (some f) deleteOk streamOk
          newBlobId now).2.2) := by
  have hlt : ¬ (fileSizeLimit < f.size) := Nat.not_lt.mpr hsize
  simp [uploadPicture, multerSingle, himg, hlt]

lemma uploadPictureBody_success (db : RestaurantDB) (blobs : BlobStore)
    (idStr : String) (f : UploadedFile) (deleteOk : Bool)
    (newBlobId now : Nat) (r : Restaurant)
    (hid : isValidObjectId idStr = true) (hr : findById db idStr = some r) :
    uploadPictureBody db blobs idStr (some f) deleteOk true newBlobId now =
      (db.map (fun x => if x.rid == idStr then
          { x with pictureId := some newBlobId } else x),
       deleteOldBlob blobs r.pictureId deleteOk ++
         [⟨newBlobId, f.originalname, some f.mimetype, f.size,
           some idStr, now⟩],
       .uploaded newBlobId f.originalname) := by
  simp [uploadPictureBody, hid, hr]

/-- C7.  Uploading a picture (image type, within the size cap) to an
existing restaurant that already holds a `pictureId`: whether or not the
best-effort deletion of the old blob succeeds, the request succeeds with
the new file id and original filename, the restaurant's `pictureId` is
set to the new blob id, exactly one live blob carries the referenced id,
and when the deletion succeeded the old blob is gone. -/
theorem picture_replace (db : RestaurantDB) (blobs : BlobStore)
    (idStr : String) (f : UploadedFile) (deleteOk : Bool)
    (newBlobId now : Nat) (r : Restaurant) (oldId : Nat)
    (hid : isValidObjectId idStr = true)
    (himg : mimeIsImage f.mimetype = true)
    (hsize : f.size ≤ fileSizeLimit)
    (hr : findById db idStr = some r) (hpic : r.pictureId = some oldId)
    (hfresh : ∀ b ∈ blobs, b.bid ≠ newBlobId) (hne : oldId ≠ newBlobId) :
    (uploadPicture db blobs idStr (some f) deleteOk true newBlobId now).2.2
      = .handler (.uploaded newBlobId f.originalname)
    ∧ (uploadPicture db blobs idStr (some f) deleteOk true newBlobId
        now).2.2.status = 200
    ∧ (∀ x ∈ (uploadPicture db blobs idStr (some f) deleteOk true newBlobId
        now).1, x.rid = idStr → x.pictureId = some newBlobId)
    ∧ ((uploadPicture db blobs idStr (some f) deleteOk true newBlobId
        now).2.1.filter (fun b => b.bid == newBlobId)).length = 1
    ∧ (deleteOk = true →
        ∀ b ∈ (uploadPicture db blobs idStr (some f) deleteOk true newBlobId
          now).2.1, b.bid ≠ oldId) := by
  have hpass := uploadPicture_passes db blobs idStr f deleteOk true
    newBlobId now himg hsize
  have hbody := uploadPictureBody_success db blobs idStr f deleteOk
    newBlobId now r hid hr
  rw [hpass, hbody]
  refine ⟨rfl, rfl, ?_, ?_, ?_⟩
  · intro x hx hxid
    rcases List.mem_map.mp hx with ⟨y, hy, hxy⟩
    by_cases hyid : (y.rid == idStr) = true
    · rw [if_pos hyid] at hxy
      rw [← hxy]
    · rw [if_neg hyid] at hxy
      exfalso
      rw [hxy] at hyid
      exact hyid (by simp [hxid])
  · rw [List.filter_append]
    have h1 : (deleteOldBlob blobs r.pictureId deleteOk).filter
        (fun b => b.bid == newBlobId) = [] := by
      rw [List.filter_eq_nil_iff]
      intro b hb
      have hbm := deleteOldBlob_subset blobs r.pictureId deleteOk b hb
      simp [hfresh b hbm]
    rw [h1]
    simp
  · intro hdel b hb
    rcases List.mem_append.mp hb with hb1 | hb2
    · rw [hpic, hdel] at hb1
      unfold deleteOldBlob at hb1
      simp only [if_true] at hb1
      have := List.of_mem_filter hb1
      simpa using this
    · rcases List.mem_singleton.mp hb2 with rfl
      exact fun hc => hne hc.symm

/-- Witness for C7: replacing a picture whose old blob fails to delete
still succeeds and reports the new file id. -/
theorem picture_replace_witness :
    mimeIsImage demoImageFile.mimetype = true
    ∧ findById demoPicStore ("aaaaaaaaaaaaaaaaaaaaaaaa") = some demoPicRestaurant
    ∧ (uploadPicture demoPicStore demoBlobs ("aaaaaaaaaaaaaaaaaaaaaaaa")
        (some demoImageFile) false true 8 1).2.2
      = .handler (.uploaded 8 demoImageFile.originalname) :=
  ⟨by decide, by decide,
   (picture_replace demoPicStore demoBlobs ("aaaaaaaaaaaaaaaaaaaaaaaa")
      demoImageFile false 8 1 demoPicRestaurant 7 (by decide) (by decide)
      (by decide) (by decide) (by decide) (by decide) (by decide)).1⟩

/-- C8.  Picture download with a valid id: a missing restaurant, a
missing `pictureId`, or a missing blob file is 404 (never a server
error); otherwise the bytes stream with the stored content type,
defaulting to `image/jpeg` when unset, and a streaming error surfaces
as 404. -/
theorem picture_download_responses (db : RestaurantDB) (blobs : BlobStore)
    (idStr : String) (streamOk : Bool)
    (hid : isValidObjectId idStr = true) :
    (findById db idStr = none →
      downloadPicture db blobs idStr streamOk = .restNotFound
      ∧ (downloadPicture db blobs idStr streamOk).status = 404)
    ∧ (∀ r, findById db idStr = some r → r.pictureId = none →
        downloadPicture db blobs idStr streamOk = .noPicture
        ∧ (downloadPicture db blobs idStr streamOk).status = 404)
    ∧ (∀ r pid, findById db idStr = some r → r.pictureId = some pid →
        (blobs.find? (fun b => b.bid == pid) = none →
          downloadPicture db blobs idStr streamOk = .fileMissing
          ∧ (downloadPicture db blobs idStr streamOk).status = 404)
        ∧ (∀ bl, blobs.find? (fun b => b.bid == pid) = some bl →
            (streamOk = true →
              downloadPicture db blobs idStr streamOk
                = .streamed (bl.contentType.getD ("image/jpeg"))
              ∧ (downloadPicture db blobs idStr streamOk).status = 200)
            ∧ (streamOk = false →
              downloadPicture db blobs idStr streamOk = .streamError
              ∧ (downloadPicture db blobs idStr streamOk).status = 404))) := by
  refine ⟨fun hf => ?_, fun r hf hp => ?_,
    fun r pid hf hp => ⟨fun hb => ?_, fun bl hb => ⟨fun hs => ?_, fun hs => ?_⟩⟩⟩
  · have h1 : downloadPicture db blobs idStr streamOk = .restNotFound := by
      simp [downloadPicture, hid, hf]
    exact ⟨h1, by rw [h1]; rfl⟩
  · have h1 : downloadPicture db blobs idStr streamOk = .noPicture := by
      simp [downloadPicture, hid, hf, hp]
    exact ⟨h1, by rw [h1]; rfl⟩
  · have h1 : downloadPicture db blobs idStr streamOk = .fileMissing := by
      simp [downloadPicture, hid, hf, hp, hb]
    exact ⟨h1, by rw [h1]; rfl⟩
  · have h1 : downloadPicture db blobs idStr streamOk
        = .streamed (bl.contentType.getD ("image/jpeg")) := by
      simp [downloadPicture, hid, hf, hp, hb, hs]
    exact ⟨h1, by rw [h1]; rfl⟩
  · have h1 : downloadPicture db blobs idStr streamOk = .streamError := by
      simp [downloadPicture, hid, hf, hp, hb, hs]
    exact ⟨h1, by rw [h1]; rfl⟩

/-- Witness for C8: a restaurant without a `pictureId` downloads as 404. -/
theorem picture_download_responses_witness :
    isValidObjectId ("aaaaaaaaaaaaaaaaaaaaaaaa") = true
    ∧ findById demoStore ("aaaaaaaaaaaaaaaaaaaaaaaa") = some demoRestaurant
    ∧ demoRestaurant.pictureId = none
    ∧ downloadPicture demoStore demoBlobs ("aaaaaaaaaaaaaaaaaaaaaaaa") true
        = .noPicture :=
  ⟨by decide, by decide, by decide,
   ((picture_download_responses demoStore demoBlobs
      ("aaaaaaaaaaaaaaaaaaaaaaaa") true (by decide)).2.1 demoRestaurant
      (by decide) (by decide)).1⟩

/-- C9.  Create-user: any missing required field is 400; a role outside
the enumeration is 400; a duplicate `uid` is 409 (distinct from the
validation error); otherwise the inserted document has
`isEmailVerified = isEmailVerified || false` (false unless explicitly
supplied true) and `createdAt`/`updatedAt` stamped to now. -/
theorem user_create_rules (db : UserDB) (now : Nat) (b : UserBody) :
    ((b.uid = none ∨ b.email = none ∨ b.name = none ∨ b.role = none) →
      createUser db now b = (db, .missingFields)
      ∧ (createUser db now b).2.status = 400)
    ∧ (jsTruthy b.uid = true → jsTruthy b.email = true →
       jsTruthy b.name = true → jsTruthy b.role = true →
        (allowedRoles.contains (b.role.getD ("")) = false →
          createUser db now b = (db, .invalidRole)
          ∧ (createUser db now b).2.status = 400)
        ∧ (allowedRoles.contains (b.role.getD ("")) = true →
            ((∃ u ∈ db, u.uid = b.uid.getD ("")) →
              createUser db now b = (db, .conflict)
              ∧ (createUser db now b).2.status = 409)
            ∧ ((∀ u ∈ db, u.uid ≠ b.uid.getD ("")) →
                createUser db now b =
                  (db ++ [⟨b.uid.getD (""), b.email.getD (""), b.name.getD (""),
                    b.role.getD (""), b.isEmailVerified.getD false, now, now⟩],
                   .created ⟨b.uid.getD (""), b.email.getD (""), b.name.getD (""),
                    b.role.getD (""), b.isEmailVerified.getD false, now, now⟩)
                ∧ (createUser db now b).2.status = 201))) := by
  constructor
  · intro h
    have h1 : createUser db now b = (db, .missingFields) := by
      rcases h with h | h | h | h <;> simp [createUser, jsTruthy, h]
    exact ⟨h1, by rw [h1]; rfl⟩
  · intro hu he hn hr
    constructor
    · intro hrole
      have hrole2 : ¬ (b.role.getD ("") ∈ allowedRoles) := by simpa using hrole
      have h1 : createUser db now b = (db, .invalidRole) := by
        simp [createUser, hu, he, hn, hr, hrole2]
      exact ⟨h1, by rw [h1]; rfl⟩
    · intro hrole
      have hrole2 : b.role.getD ("") ∈ allowedRoles := by simpa using hrole
      constructor
      · rintro ⟨u, humem, huid⟩
        have hex : ∃ x ∈ db, x.uid = b.uid.getD ("") := ⟨u, humem, huid⟩
        have h1 : createUser db now b = (db, .conflict) := by
          simp [createUser, hu, he, hn, hr, hrole2, hex]
        exact ⟨h1, by rw [h1]; rfl⟩
      · intro hnone
        have hex : ¬ ∃ x ∈ db, x.uid = b.uid.getD ("") := by
          rintro ⟨x, hx, hxx⟩
          exact hnone x hx hxx
        have h1 : createUser db now b =
            (db ++ [⟨b.uid.getD (""), b.email.getD (""), b.name.getD (""),
              b.role.getD (""), b.isEmailVerified.getD false, now, now⟩],
             .created ⟨b.uid.getD (""), b.email.getD (""), b.name.getD (""),
              b.role.getD (""), b.isEmailVerified.getD false, now, now⟩) := by
          simp [createUser, hu, he, hn, hr, hrole2, hex]
        exact ⟨h1, by rw [h1]; rfl⟩

/-- Witness for C9: a fresh valid user is inserted and answered 201. -/
theorem user_create_rules_witness :
    jsTruthy demoUserBody.uid = true
    ∧ allowedRoles.contains (demoUserBody.role.getD ("")) = true
    ∧ (createUser [] 3 demoUserBody).2.status = 201 :=
  ⟨by decide, by decide,
   (((user_create_rules [] 3 demoUserBody).2 (by decide) (by decide)
      (by decide) (by decide)).2 (by decide)).2 (by decide) |>.2⟩

lemma uploadPictureBody_blobs_cases (db : RestaurantDB) (blobs : BlobStore)
    (idStr : String) (file : Option UploadedFile) (deleteOk streamOk : Bool)
    (newBlobId now : Nat) :
    ∀ b ∈ (uploadPictureBody db blobs idStr file deleteOk streamOk
        newBlobId now).2.1,
      b ∈ blobs ∨ (∃ f, file = some f ∧ b.size = f.size) := by
  intro b hb
  unfold uploadPictureBody at hb
  split at hb
  · exact Or.inl hb
  · split at hb
    · exact Or.inl hb
    · split at hb
      · exact Or.inl hb
      · cases streamOk
        · simp only [Bool.false_eq_true, if_false] at hb
          exact Or.inl (deleteOldBlob_subset _ _ _ b hb)
        · simp only [if_true] at hb
          rcases List.mem_append.mp hb with hb1 | hb2
          · exact Or.inl (deleteOldBlob_subset _ _ _ b hb1)
          · rcases List.mem_singleton.mp hb2 with rfl
            exact Or.inr ⟨_, rfl, rfl⟩

lemma multerSingle_passed_size (file : Option UploadedFile)
    (f : UploadedFile) (h : multerSingle file = .passed (some f)) :
    f.size ≤ fileSizeLimit := by
  cases file with
  | none => simp [multerSingle] at h
  | some g =>
    cases him : mimeIsImage g.mimetype with
    | false => simp [multerSingle, him] at h
    | true =>
      by_cases hs : fileSizeLimit < g.size
      · simp [multerSingle, him, hs] at h
      · simp [multerSingle, him, hs] at h
        rw [← h]
        exact Nat.not_lt.mp hs

/-- C10.  The multer `fileSize` limit: a payload above 5 MiB is rejected
by the middleware before the handler body runs — both stores untouched —
and consequently no blob larger than 5 MiB is ever written to the blob
store by an upload request. -/
theorem size_cap_enforced (db : RestaurantDB) (blobs : BlobStore)
    (idStr : String) (file : Option UploadedFile) (deleteOk streamOk : Bool)
    (newBlobId now : Nat) :
    (∀ f, file = some f → fileSizeLimit < f.size →
      ((uploadPicture db blobs idStr file deleteOk streamOk newBlobId
          now).2.2 = .typeRejected
        ∨ (uploadPicture db blobs idStr file deleteOk streamOk newBlobId
          now).2.2 = .sizeRejected)
      ∧ (uploadPicture db blobs idStr file deleteOk streamOk newBlobId
          now).1 = db
      ∧ (uploadPicture db blobs idStr file deleteOk streamOk newBlobId
          now).2.1 = blobs)
    ∧ (∀ b ∈ (uploadPicture db blobs idStr file deleteOk streamOk newBlobId
        now).2.1, b ∈ blobs ∨ b.size ≤ fileSizeLimit) := by
  constructor
  · intro f hf hsz
    subst hf
    cases hb : mimeIsImage f.mimetype with
    | false =>
      have h1 : uploadPicture db blobs idStr (some f) deleteOk streamOk
          newBlobId now = (db, blobs, .typeRejected) := by
        simp [uploadPicture, multerSingle, hb]
      exact ⟨Or.inl (by rw [h1]), by rw [h1], by rw [h1]⟩
    | true =>
      have h1 : uploadPicture db blobs idStr (some f) deleteOk streamOk
          newBlobId now = (db, blobs, .sizeRejected) := by
        simp [uploadPicture, multerSingle, hb, hsz]
      exact ⟨Or.inr (by rw [h1]), by rw [h1], by rw [h1]⟩
  · intro b hb
    unfold uploadPicture at hb
    split at hb
    · exact Or.inl hb
    · exact Or.inl hb
    · rename_i f0 heq
      rcases uploadPictureBody_blobs_cases db blobs idStr f0 deleteOk
        streamOk newBlobId now b hb with hbm | ⟨f, hf0, hbs⟩
      · exact Or.inl hbm
      · subst hf0
        right
        rw [hbs]
        exact multerSingle_passed_size file f heq

/-- Witness for C10: a 6 MiB image is rejected with both stores
untouched. -/
theorem size_cap_enforced_witness :
    fileSizeLimit < 6291456
    ∧ (uploadPicture demoPicStore demoBlobs ("aaaaaaaaaaaaaaaaaaaaaaaa")
        (some ⟨"big.png", "image/png", 6291456⟩) true true 9 2).2.1
      = demoBlobs :=
  ⟨by decide,
   ((size_cap_enforced demoPicStore demoBlobs ("aaaaaaaaaaaaaaaaaaaaaaaa")
      (some ⟨"big.png", "image/png", 6291456⟩) true true 9 2).1
      ⟨"big.png", "image/png", 6291456⟩ rfl (by decide)).2.2⟩

/-- Witness for C3: a fresh owner creates at 201; re-creating with the
same owner immediately after fails as a duplicate. -/
theorem create_restaurant_rules_witness :
    demoCreateBody.ownerId = some ("owner2")
    ∧ (∀ r ∈ demoStore, r.ownerId ≠ "owner2")
    ∧ (createRestaurant demoStore ("bbbbbbbbbbbbbbbbbbbbbbbb") 5
        demoCreateBody).2.status = 201
    ∧ (createRestaurant
        (createRestaurant demoStore ("bbbbbbbbbbbbbbbbbbbbbbbb") 5
          demoCreateBody).1 ("cccccccccccccccccccccccc") 6
        demoCreateBody).2 = .duplicateOwner :=
  ⟨rfl, by decide,
   (((create_restaurant_rules demoStore ("bbbbbbbbbbbbbbbbbbbbbbbb")
        ("cccccccccccccccccccccccc") 5 6 demoCreateBody demoCreateBody).2
        ("owner2") rfl (by decide)).2 (by decide)).2.1,
   (((create_restaurant_rules demoStore ("bbbbbbbbbbbbbbbbbbbbbbbb")
        ("cccccccccccccccccccccccc") 5 6 demoCreateBody demoCreateBody).2
        ("owner2") rfl (by decide)).2 (by decide)).2.2 rfl⟩
